import Mathlib

/-!
Verification development for the mmorpg-ai combat core.

The definitions below are a shallow embedding of the JavaScript sources:
  * `src/game/combat/combatConfig.js`   (constants)
  * `src/game/combat/CombatStats.js`    (per-entity stat block)
  * `src/game/combat/DamageCalculator.js` (pure damage / range / validation)
  * `src/game/combat/StatusEffect.js`   (status effects and their manager)
  * `src/game/combat/CombatSystem.js`   (attack / skill orchestration)
  * `src/game/entities/monster.js`      (Monster.takeDamage)
  * `src/game/entities/monsterAI.js`    (MonsterAI state machine, 2nd iteration)

JavaScript numbers are modelled as rationals; `Math.round` / `Math.floor`
are the exact half-up rounding and floor on rationals.  Entity ids are
natural numbers.  Timers are modelled as booleans recording whether the
corresponding handle is set; the wall clock is an explicit parameter.
-/

namespace Mmorpg

/-- JavaScript `Math.round`: round half toward positive infinity. -/
def jsRound (x : ℚ) : ℤ := ⌊x + 1/2⌋

/-- JavaScript `Math.floor`. -/
def jsFloor (x : ℚ) : ℤ := ⌊x⌋

/-- JavaScript `v || d` for a possibly-absent numeric `v`: `0` (and absence)
are falsy and fall through to the default. -/
def jsOrOpt (v : Option ℚ) (d : ℚ) : ℚ :=
  match v with
  | some x => if x = 0 then d else x
  | none => d

/-- JavaScript `x || d` for a present numeric `x` (`0` is falsy). -/
def jsOr (x d : ℚ) : ℚ := if x = 0 then d else x

/-- JavaScript `Number(v) || 0`: a non-numeric argument (modelled by `none`,
whose coercion is `NaN`) collapses to `0`. -/
def jsNumberOr0 (v : Option ℚ) : ℚ :=
  match v with
  | some x => x
  | none => 0

/-! ### combatConfig.js -/

/-- `COMBAT_CONFIG.ATTACK_RANGE_TOLERANCE` — the source stores `1.2` with the
comment `(20%)`. -/
def ATTACK_RANGE_TOLERANCE : ℚ := 6/5

/-- `COMBAT_CONFIG.MELEE_RANGE`. -/
def MELEE_RANGE : ℚ := 3/2

/-- `COMBAT_CONFIG.DEFAULT_ATTACK_COOLDOWN` (ms). -/
def DEFAULT_ATTACK_COOLDOWN : ℚ := 1000

/-- The damage types of `DAMAGE_TYPES`.  The strings `'true'` and `'TRUE'`
(both accepted by `CombatStats.applyDamage`) are represented by the single
constructor `trueDmg`. -/
inductive DamageType
  | physical
  | magical
  | trueDmg
  | fire
  | ice
  | lightning
  | poison
deriving DecidableEq

/-- The source's check `type !== 'true' && type !== 'TRUE'`, negated. -/
def DamageType.isTrueType : DamageType → Bool
  | .trueDmg => true
  | _ => false

/-- The per-type elemental resistance map of `CombatStats` (percentages). -/
structure Resistances where
  physical : ℚ
  magical : ℚ
  fire : ℚ
  ice : ℚ
  lightning : ℚ
  poison : ℚ
deriving DecidableEq

/-- The all-zero default resistance map of the `CombatStats` constructor. -/
def Resistances.zero : Resistances := ⟨0, 0, 0, 0, 0, 0⟩

/-- `this.resistances[type]`.  The default map has no `'true'` key, so that
lookup yields `0`; the guard in `applyDamage` makes the value irrelevant for
true damage anyway. -/
def Resistances.get (r : Resistances) : DamageType → ℚ
  | .physical => r.physical
  | .magical => r.magical
  | .trueDmg => 0
  | .fire => r.fire
  | .ice => r.ice
  | .lightning => r.lightning
  | .poison => r.poison

/-! ### CombatStats.js -/

/-- The numeric state of a `CombatStats` instance (listener arrays are
modelled separately, see the listener section below). -/
structure CombatStats where
  maxHp : ℚ
  hp : ℚ
  maxMp : ℚ
  mp : ℚ
  attack : ℚ
  defense : ℚ
  level : ℚ
  critChance : ℚ
  critMultiplier : ℚ
  attackRange : ℚ
  resistances : Resistances
  isDead : Bool
  lastAttackTime : ℚ
  attackCooldown : ℚ
deriving DecidableEq

/-- Return value of `CombatStats.applyDamage`. -/
structure DamageOutcome where
  damage : ℤ
  absorbed : ℚ
  targetDied : Bool
  critical : Bool
deriving DecidableEq

/-- `CombatStats.die` — idempotent: sets `isDead`, clamps `hp` to `0`. -/
def CombatStats.die (s : CombatStats) : CombatStats :=
  if s.isDead then s else { s with isDead := true, hp := 0 }

/-- The `absorbedByDefense` local of `CombatStats.applyDamage`: physical
damage against positive defense absorbs `min(amount*0.6, defense*0.8)`. -/
def CombatStats.absorbedByDefense (s : CombatStats) (amount : ℚ)
    (dtype : DamageType) : ℚ :=
  if ¬dtype.isTrueType ∧ dtype = .physical ∧ 0 < s.defense then
    min (amount * (6/10)) (s.defense * (8/10))
  else 0

/-- The `resistance` local of `CombatStats.applyDamage`:
`if (this.resistances[type]) resistance = this.resistances[type]` — a zero
entry is falsy and leaves `resistance` at `0`, which coincides with reading
the entry, so the lookup itself is the value. -/
def CombatStats.damageResistance (s : CombatStats) (dtype : DamageType) : ℚ :=
  if ¬dtype.isTrueType then s.resistances.get dtype else 0

/-- The `finalDamage` local of `CombatStats.applyDamage`:
`Math.max(0, (amount - absorbedByDefense) * resistanceMultiplier)`. -/
def CombatStats.finalDamage (s : CombatStats) (amount : ℚ) (dtype : DamageType) : ℚ :=
  max 0 ((amount - s.absorbedByDefense amount dtype) *
    (1 - s.damageResistance dtype / 100))

/-- The `roundedDamage` local of `CombatStats.applyDamage`. -/
def CombatStats.roundedDamage (s : CombatStats) (amount : ℚ) (dtype : DamageType) : ℤ :=
  jsRound (s.finalDamage amount dtype)

/-- `CombatStats.applyDamage(amount, type, attackerId, options)`.  The
attacker id and options only feed the listener broadcast (modelled in the
listener section); `critical` is `options.critical || false`. -/
def CombatStats.applyDamage (s : CombatStats) (amount : ℚ) (dtype : DamageType)
    (critical : Bool) : CombatStats × DamageOutcome :=
  if s.isDead then
    (s, { damage := 0, absorbed := 0, targetDied := false, critical := false })
  else
    let roundedDamage : ℤ := s.roundedDamage amount dtype
    let hp2 : ℚ := max 0 (s.hp - (roundedDamage : ℚ))
    let targetDied : Bool := decide (hp2 ≤ 0)
    let s2 : CombatStats := { s with hp := hp2 }
    let s3 : CombatStats := if targetDied ∧ ¬s2.isDead then s2.die else s2
    (s3, { damage := roundedDamage,
           absorbed := s.absorbedByDefense amount dtype +
             (amount - s.finalDamage amount dtype),
           targetDied := targetDied, critical := critical })

/-- `CombatStats.heal(amount, healerId, options)`; returns the new state and
the actually healed amount. -/
def CombatStats.heal (s : CombatStats) (amount : ℚ) : CombatStats × ℚ :=
  if s.isDead then (s, 0)
  else
    let hp2 : ℚ := min s.maxHp (s.hp + amount)
    ({ s with hp := hp2 }, hp2 - s.hp)

/-- `CombatStats.consumeMp(amount)`; returns the new state and whether the
consumption succeeded. -/
def CombatStats.consumeMp (s : CombatStats) (amount : ℚ) : CombatStats × Bool :=
  if s.mp < amount then (s, false)
  else ({ s with mp := s.mp - amount }, true)

/-- `CombatStats.canAttack(currentTime)`. -/
def CombatStats.canAttack (s : CombatStats) (currentTime : ℚ) : Bool :=
  !s.isDead && decide (s.attackCooldown ≤ currentTime - s.lastAttackTime)

/-- `CombatStats.registerAttack(currentTime)`. -/
def CombatStats.registerAttack (s : CombatStats) (currentTime : ℚ) : CombatStats :=
  { s with lastAttackTime := currentTime }

/-- `CombatStats.revive(healthPercent)`. -/
def CombatStats.revive (s : CombatStats) (healthPercent : ℚ) : CombatStats :=
  if ¬s.isDead then s
  else { s with isDead := false,
                hp := max 1 ((jsFloor (s.maxHp * (healthPercent / 100)) : ℚ)) }

/-- One call of the claim C1 sequence: either an `applyDamage` or a `heal`. -/
inductive CombatOp
  | damage (amount : ℚ) (dtype : DamageType) (critical : Bool)
  | heal (amount : ℚ)

/-- State effect of one `CombatOp`. -/
def CombatStats.applyOp (s : CombatStats) : CombatOp → CombatStats
  | .damage amount dtype critical => (s.applyDamage amount dtype critical).1
  | .heal amount => (s.heal amount).1

/-- State effect of a whole call sequence. -/
def CombatStats.applyOps (s : CombatStats) (ops : List CombatOp) : CombatStats :=
  ops.foldl CombatStats.applyOp s

/-- An op is a heal with a nonnegative amount, or any damage call. -/
def CombatOp.healNonneg : CombatOp → Prop
  | .damage _ _ _ => True
  | .heal amount => 0 ≤ amount

instance : DecidablePred CombatOp.healNonneg := by
  intro op; cases op <;> simp [CombatOp.healNonneg] <;> infer_instance

/-- The stat-block invariant of the spec: hp within `[0, maxHp]` and
`isDead ⟺ hp == 0`, for a block with a positive `maxHp`. -/
def CombatStats.WellFormed (s : CombatStats) : Prop :=
  0 < s.maxHp ∧ 0 ≤ s.hp ∧ s.hp ≤ s.maxHp ∧ (s.isDead = true ↔ s.hp = 0)

instance (s : CombatStats) : Decidable s.WellFormed := by
  unfold CombatStats.WellFormed; infer_instance

/-! ### Basic lemmas about the stat block -/

lemma jsRound_nonneg {x : ℚ} (hx : 0 ≤ x) : 0 ≤ jsRound x := by
  unfold jsRound
  exact Int.le_floor.2 (by push_cast; linarith)

lemma CombatStats.finalDamage_nonneg (s : CombatStats) (amount : ℚ)
    (dtype : DamageType) : 0 ≤ s.finalDamage amount dtype :=
  le_max_left 0 _

lemma CombatStats.roundedDamage_nonneg (s : CombatStats) (amount : ℚ)
    (dtype : DamageType) : 0 ≤ s.roundedDamage amount dtype :=
  jsRound_nonneg (s.finalDamage_nonneg amount dtype)

lemma CombatStats.applyDamage_dead (s : CombatStats) (amount : ℚ)
    (dtype : DamageType) (critical : Bool) (h : s.isDead = true) :
    (s.applyDamage amount dtype critical).1 = s := by
  simp [CombatStats.applyDamage, h]

lemma CombatStats.heal_dead (s : CombatStats) (amount : ℚ)
    (h : s.isDead = true) : (s.heal amount).1 = s := by
  simp [CombatStats.heal, h]

lemma CombatStats.applyOp_dead (s : CombatStats) (op : CombatOp)
    (h : s.isDead = true) : s.applyOp op = s := by
  cases op with
  | damage amount dtype critical => exact s.applyDamage_dead amount dtype critical h
  | heal amount => exact s.heal_dead amount h

/-- Shape of the post-state of a live `applyDamage` call. -/
lemma CombatStats.applyDamage_alive (s : CombatStats) (amount : ℚ)
    (dtype : DamageType) (critical : Bool) (h : s.isDead = false) :
    (s.applyDamage amount dtype critical).1 =
      (if max 0 (s.hp - (s.roundedDamage amount dtype : ℚ)) ≤ 0
        then ({ s with hp := max 0 (s.hp - (s.roundedDamage amount dtype : ℚ)) } :
          CombatStats).die
        else { s with hp := max 0 (s.hp - (s.roundedDamage amount dtype : ℚ)) }) := by
  simp only [CombatStats.applyDamage, h, Bool.false_eq_true, if_false]
  by_cases hle : max 0 (s.hp - (s.roundedDamage amount dtype : ℚ)) ≤ 0 <;>
    simp [hle, h]

/-- A live `applyDamage` always lands on `hp = max 0 (hp - roundedDamage)`
(`die` only re-writes an hp that is already `0`). -/
lemma CombatStats.applyDamage_hp (s : CombatStats) (amount : ℚ)
    (dtype : DamageType) (critical : Bool) (h : s.isDead = false) :
    (s.applyDamage amount dtype critical).1.hp =
      max 0 (s.hp - (s.roundedDamage amount dtype : ℚ)) := by
  rw [s.applyDamage_alive amount dtype critical h]
  by_cases hle : max 0 (s.hp - (s.roundedDamage amount dtype : ℚ)) ≤ 0
  · have h0 : max 0 (s.hp - (s.roundedDamage amount dtype : ℚ)) = 0 :=
      le_antisymm hle (le_max_left 0 _)
    simp [hle, CombatStats.die, h, h0]
  · simp [hle]

/-- The damage field of the result of `applyDamage` on a live target. -/
lemma CombatStats.applyDamage_damage (s : CombatStats) (amount : ℚ)
    (dtype : DamageType) (critical : Bool) (h : s.isDead = false) :
    (s.applyDamage amount dtype critical).2.damage =
      s.roundedDamage amount dtype := by
  simp [CombatStats.applyDamage, h]

lemma CombatStats.applyDamage_wf (s : CombatStats) (amount : ℚ)
    (dtype : DamageType) (critical : Bool) (hwf : s.WellFormed) :
    (s.applyDamage amount dtype critical).1.WellFormed := by
  obtain ⟨hmax, hhp0, hhpM, hiff⟩ := hwf
  by_cases hd : s.isDead = true
  · rw [s.applyDamage_dead amount dtype critical hd]
    exact ⟨hmax, hhp0, hhpM, hiff⟩
  · have hfalse : s.isDead = false := by
      cases hsd : s.isDead
      · rfl
      · exact absurd hsd hd
    have hdnn : (0 : ℚ) ≤ (s.roundedDamage amount dtype : ℚ) := by
      exact_mod_cast s.roundedDamage_nonneg amount dtype
    rw [s.applyDamage_alive amount dtype critical hfalse]
    by_cases hle : max 0 (s.hp - (s.roundedDamage amount dtype : ℚ)) ≤ 0
    · have h0 : max 0 (s.hp - (s.roundedDamage amount dtype : ℚ)) = 0 :=
        le_antisymm hle (le_max_left 0 _)
      refine ⟨by simpa [hle, CombatStats.die, hfalse] using hmax, ?_, ?_, ?_⟩
      · simp [hle, CombatStats.die, hfalse]
      · simp [hle, CombatStats.die, hfalse]; linarith
      · simp [hle, CombatStats.die, hfalse]
    · refine ⟨by simpa [hle] using hmax, ?_, ?_, ?_⟩
      · simp [hle]
      · have : max 0 (s.hp - (s.roundedDamage amount dtype : ℚ)) ≤ s.hp := by
          apply max_le (le_trans hhp0 (le_refl s.hp)) (by linarith)
        simp only [hle, if_false]
        exact le_trans this hhpM
      · simp only [hle, if_false]
        constructor
        · intro habs
          exact absurd habs (by simp [hfalse])
        · intro habs
          exact absurd (le_of_eq habs) hle

lemma CombatStats.heal_wf (s : CombatStats) (amount : ℚ) (hnn : 0 ≤ amount)
    (hwf : s.WellFormed) : (s.heal amount).1.WellFormed := by
  obtain ⟨hmax, hhp0, hhpM, hiff⟩ := hwf
  by_cases hd : s.isDead = true
  · rw [s.heal_dead amount hd]; exact ⟨hmax, hhp0, hhpM, hiff⟩
  · have hfalse : s.isDead = false := by
      cases hsd : s.isDead
      · rfl
      · exact absurd hsd hd
    have hpos : 0 < s.hp := by
      rcases lt_or_eq_of_le hhp0 with h | h
      · exact h
      · exact absurd (hiff.2 h.symm) (by simp [hfalse])
    refine ⟨?_, ?_, ?_, ?_⟩ <;> simp only [CombatStats.heal, hfalse,
      Bool.false_eq_true, if_false]
    · exact hmax
    · exact le_min (le_of_lt hmax) (by linarith)
    · exact min_le_left _ _
    · constructor
      · intro habs; exact absurd habs (by simp [hfalse])
      · intro habs
        have : 0 < min s.maxHp (s.hp + amount) := lt_min hmax (by linarith)
        exact absurd habs (by linarith)

lemma CombatStats.applyOp_wf (s : CombatStats) (op : CombatOp)
    (hop : op.healNonneg) (hwf : s.WellFormed) : (s.applyOp op).WellFormed := by
  cases op with
  | damage amount dtype critical => exact s.applyDamage_wf amount dtype critical hwf
  | heal amount => exact s.heal_wf amount hop hwf

lemma CombatStats.applyOps_wf (ops : List CombatOp) (s : CombatStats)
    (hwf : s.WellFormed) (hops : ∀ op ∈ ops, op.healNonneg) :
    (s.applyOps ops).WellFormed := by
  induction ops generalizing s with
  | nil => exact hwf
  | cons op rest ih =>
    have h1 : (s.applyOp op).WellFormed :=
      s.applyOp_wf op (hops op (List.mem_cons_self op rest)) hwf
    have h2 : ∀ o ∈ rest, o.healNonneg := fun o ho =>
      hops o (List.mem_cons_of_mem op ho)
    simpa [CombatStats.applyOps] using ih (s.applyOp op) h1 h2

/-! ### Claim C1 -/

/-- Concrete stat block used for the C1 counterexample and witness:
a freshly created block with `hp = maxHp = 100`. -/
def c1Stats : CombatStats :=
  { maxHp := 100, hp := 100, maxMp := 50, mp := 50, attack := 10, defense := 5,
    level := 1, critChance := 1/10, critMultiplier := 3/2, attackRange := 3/2,
    resistances := Resistances.zero, isDead := false, lastAttackTime := 0,
    attackCooldown := 1000 }

/-- C1 (amended): for a `CombatStats` created with `hp = maxHp > 0`, after any
sequence of `applyDamage` and `heal` calls in which the heal amounts are
nonnegative, `0 ≤ hp ≤ maxHp` holds and `isDead ⟺ hp == 0`; moreover a dead
block is left unchanged by any further `applyDamage`/`heal` call (until
`revive`).  The nonnegativity restriction on heals is forced by the
counterexample below. -/
theorem combatStats_hp_invariant (s : CombatStats) (ops : List CombatOp)
    (hmax : 0 < s.maxHp) (hhp : s.hp = s.maxHp) (halive : s.isDead = false)
    (hheal : ∀ op ∈ ops, op.healNonneg) :
    (s.applyOps ops).WellFormed ∧
      ∀ (t : CombatStats) (op : CombatOp), t.isDead = true → t.applyOp op = t := by
  constructor
  · exact CombatStats.applyOps_wf ops s
      ⟨hmax, by rw [hhp]; exact le_of_lt hmax, le_of_eq hhp, by
        constructor
        · intro habs; exact absurd habs (by simp [halive])
        · intro habs; rw [hhp] at habs; exact absurd habs (by linarith)⟩ hheal
  · intro t op ht
    exact t.applyOp_dead op ht

/-- C1 witness: the invariant theorem applied to a concrete block and a
concrete damage/heal sequence. -/
theorem combatStats_hp_invariant_witness :
    (0 : ℚ) < c1Stats.maxHp ∧ c1Stats.hp = c1Stats.maxHp ∧
      c1Stats.isDead = false ∧
      (c1Stats.applyOps
        [CombatOp.damage 20 .physical false, CombatOp.heal 5,
         CombatOp.damage 500 .trueDmg false, CombatOp.heal 50]).WellFormed :=
  ⟨by norm_num [c1Stats], by norm_num [c1Stats], by norm_num [c1Stats],
    (combatStats_hp_invariant c1Stats _ (by norm_num [c1Stats])
      (by norm_num [c1Stats]) (by norm_num [c1Stats])
      (by intro op hop
          simp only [List.mem_cons, List.not_mem_nil, or_false] at hop
          rcases hop with h | h | h | h <;> subst h <;>
            simp [CombatOp.healNonneg])).1⟩

/-- C1 counterexample: `heal` does not guard against negative amounts, so a
single heal call with amount `-150` on a freshly created live block with
`hp = maxHp = 100` drives `hp` to `-50 < 0`, violating the claimed invariant
`0 ≤ hp` as stated. -/
theorem combatStats_negative_heal_counterexample :
    c1Stats.isDead = false ∧ c1Stats.hp = c1Stats.maxHp ∧ 0 < c1Stats.maxHp ∧
      (c1Stats.applyOp (CombatOp.heal (-150))).hp < 0 := by
  refine ⟨rfl, rfl, by norm_num [c1Stats], ?_⟩
  norm_num [c1Stats, CombatStats.applyOp, CombatStats.heal]

/-! ### Claim C2 -/

lemma CombatStats.absorbedByDefense_physical (s : CombatStats) (amount : ℚ)
    (hamount : 0 ≤ amount) (hdef : 0 ≤ s.defense) :
    s.absorbedByDefense amount .physical =
      min (amount * (6/10)) (s.defense * (8/10)) := by
  unfold CombatStats.absorbedByDefense
  rcases lt_or_eq_of_le hdef with h | h
  · simp [DamageType.isTrueType, h]
  · rw [← h, zero_mul]
    simp only [DamageType.isTrueType, Bool.not_false, lt_self_iff_false,
      and_false, if_false]
    exact (min_eq_right (by positivity)).symm

lemma CombatStats.finalDamage_physical (s : CombatStats) (amount : ℚ)
    (hamount : 0 ≤ amount) (hdef : 0 ≤ s.defense)
    (hres : s.resistances.physical ≤ 100) :
    s.finalDamage amount .physical =
      (amount - min (amount * (6/10)) (s.defense * (8/10))) *
        (1 - s.resistances.physical / 100) := by
  unfold CombatStats.finalDamage
  rw [s.absorbedByDefense_physical amount hamount hdef]
  have hdr : s.damageResistance .physical = s.resistances.physical := by
    simp [CombatStats.damageResistance, DamageType.isTrueType, Resistances.get]
  rw [hdr]
  have h1 : 0 ≤ amount - min (amount * (6/10)) (s.defense * (8/10)) := by
    have hml : min (amount * (6/10)) (s.defense * (8/10)) ≤ amount * (6/10) :=
      min_le_left _ _
    linarith
  have h2 : 0 ≤ 1 - s.resistances.physical / 100 := by linarith
  exact max_eq_right (mul_nonneg h1 h2)

/-- Concrete scenario stat block for C2: a target with `defense = 10`, no
resistances, alive. -/
def c2Stats : CombatStats :=
  { maxHp := 100, hp := 100, maxMp := 50, mp := 50, attack := 20, defense := 10,
    level := 5, critChance := 1/10, critMultiplier := 3/2, attackRange := 3/2,
    resistances := Resistances.zero, isDead := false, lastAttackTime := 0,
    attackCooldown := 1000 }

/-- C2: on a living target, a physical `applyDamage` produces a damage value
equal to `round((amount - min(amount*0.6, defense*0.8)) * (1 - res/100))` and
subtracts it from `hp`, floored at `0`; in the concrete scenario (amount 20,
defense 10, no resistance) the defense absorbs `8` and the final damage is
`12`. -/
theorem applyDamage_physical_formula (s : CombatStats) (amount : ℚ)
    (critical : Bool) (halive : s.isDead = false) (hamount : 0 ≤ amount)
    (hdef : 0 ≤ s.defense) (hres : s.resistances.physical ≤ 100) :
    ((s.applyDamage amount .physical critical).2.damage =
      jsRound ((amount - min (amount * (6/10)) (s.defense * (8/10))) *
        (1 - s.resistances.physical / 100))) ∧
    (s.applyDamage amount .physical critical).1.hp =
      max 0 (s.hp - ((s.applyDamage amount .physical critical).2.damage : ℚ)) ∧
    c2Stats.absorbedByDefense 20 .physical = 8 ∧
    (c2Stats.applyDamage 20 .physical false).2.damage = 12 := by
  have hdmg : (s.applyDamage amount .physical critical).2.damage =
      jsRound ((amount - min (amount * (6/10)) (s.defense * (8/10))) *
        (1 - s.resistances.physical / 100)) := by
    rw [s.applyDamage_damage amount .physical critical halive,
      CombatStats.roundedDamage,
      s.finalDamage_physical amount hamount hdef hres]
  refine ⟨hdmg, ?_, ?_, ?_⟩
  · rw [s.applyDamage_hp amount .physical critical halive,
      s.applyDamage_damage amount .physical critical halive]
  · norm_num [c2Stats, CombatStats.absorbedByDefense, DamageType.isTrueType]
  · have h12 : (c2Stats.applyDamage 20 .physical false).2.damage =
        jsRound ((20 - min (20 * (6/10)) (c2Stats.defense * (8/10))) *
          (1 - c2Stats.resistances.physical / 100)) := by
      rw [c2Stats.applyDamage_damage 20 .physical false rfl,
        CombatStats.roundedDamage,
        c2Stats.finalDamage_physical 20 (by norm_num) (by norm_num [c2Stats])
          (by norm_num [c2Stats, Resistances.zero])]
    rw [h12]
    norm_num [c2Stats, Resistances.zero, jsRound]

/-- C2 witness: the formula theorem instantiated at the concrete scenario. -/
theorem applyDamage_physical_formula_witness :
    c2Stats.isDead = false ∧ (0 : ℚ) ≤ 20 ∧ (0 : ℚ) ≤ c2Stats.defense ∧
      c2Stats.resistances.physical ≤ 100 ∧
      (c2Stats.applyDamage 20 .physical false).2.damage =
        jsRound ((20 - min (20 * (6/10)) (c2Stats.defense * (8/10))) *
          (1 - c2Stats.resistances.physical / 100)) :=
  ⟨rfl, by norm_num, by norm_num [c2Stats], by norm_num [c2Stats, Resistances.zero],
    (applyDamage_physical_formula c2Stats 20 false rfl (by norm_num)
      (by norm_num [c2Stats]) (by norm_num [c2Stats, Resistances.zero])).1⟩

/-! ### DamageCalculator.js -/

/-- A 3D position (`THREE.Vector3` / plain `{x,y,z}` data). -/
structure Position where
  x : ℚ
  y : ℚ
  z : ℚ
deriving DecidableEq

/-- A combat-registered entity as seen by the calculator and the system:
an id, a position, the collision `radius` read by `isInRange`, and the
attached stat block. -/
structure Entity where
  id : ℕ
  position : Position
  radius : ℚ
  combatStats : CombatStats
deriving DecidableEq

/-- The option bag of `processAttack` / `validateAttack` calls. -/
structure AttackOptions where
  canTargetDead : Bool
  ignoreRange : Bool
  range : Option ℚ
  damageMultiplier : Option ℚ
  damageType : Option DamageType
deriving DecidableEq

/-- The empty options object `{}`. -/
def AttackOptions.default : AttackOptions :=
  { canTargetDead := false, ignoreRange := false, range := none,
    damageMultiplier := none, damageType := none }

/-- `DamageCalculator.isInRange(attacker, target, options)`.  The source
compares `distance ≤ attackRange + targetRadius` where
`distance = Math.sqrt(distanceSquared)` and
`attackRange = (options.range || attacker's range) * (1 + ATTACK_RANGE_TOLERANCE)`.
Over the reals `√d ≤ R ↔ 0 ≤ R ∧ d ≤ R·R`, which is the square-root-free
decidable form used here. -/
def DamageCalculator.isInRange (attacker target : Entity)
    (optRange : Option ℚ) : Bool :=
  let dx := attacker.position.x - target.position.x
  let dy := attacker.position.y - target.position.y
  let dz := attacker.position.z - target.position.z
  let distanceSquared := dx * dx + dy * dy + dz * dz
  let attackRange := jsOrOpt optRange attacker.combatStats.attackRange
  let attackRange2 := attackRange * (1 + ATTACK_RANGE_TOLERANCE)
  let targetRadius := jsOr target.radius (1/2)
  decide (0 ≤ attackRange2 + targetRadius ∧
    distanceSquared ≤ (attackRange2 + targetRadius) * (attackRange2 + targetRadius))

/-- Modelled from the spec (reference formula of claim C3): the reach is the
nominal range with a 20% tolerance (`range * 1.2`) plus the target's
collision radius — the reading also given by the config comment `(20%)` and
by the player-side check `attackRange * 1.2`. -/
def isInRangeSpec (attacker target : Entity) (optRange : Option ℚ) : Bool :=
  let dx := attacker.position.x - target.position.x
  let dy := attacker.position.y - target.position.y
  let dz := attacker.position.z - target.position.z
  let distanceSquared := dx * dx + dy * dy + dz * dz
  let attackRange := jsOrOpt optRange attacker.combatStats.attackRange
  let attackRange2 := attackRange * (6/5)
  let targetRadius := jsOr target.radius (1/2)
  decide (0 ≤ attackRange2 + targetRadius ∧
    distanceSquared ≤ (attackRange2 + targetRadius) * (attackRange2 + targetRadius))

/-- The failure reasons of `validateAttack` / `processAttack` /
`processSkillUse` (the source returns them as Portuguese message strings). -/
inductive FailReason
  | invalidEntities
  | attackerDead
  | targetDead
  | attackerCooldown
  | outOfRange
  | stillInCooldown
  | insufficientMp
deriving DecidableEq

/-- `DamageCalculator.validateAttack(attacker, target, options)` with the
clock passed explicitly (the source reads `Date.now()`).  The null-entity
check of the source cannot fire in this embedding, where both entities are
given. -/
def DamageCalculator.validateAttack (attacker target : Entity)
    (opts : AttackOptions) (now : ℚ) : Option FailReason :=
  if attacker.combatStats.isDead then some .attackerDead
  else if ¬opts.canTargetDead ∧ target.combatStats.isDead then some .targetDead
  else if ¬attacker.combatStats.canAttack now then some .attackerCooldown
  else if ¬opts.ignoreRange ∧
      ¬DamageCalculator.isInRange attacker target opts.range then
    some .outOfRange
  else none

/-- Return value of the damage-calculator entry points. -/
structure DamageCalcOutcome where
  damage : ℤ
  dtype : DamageType
  critical : Bool
deriving DecidableEq

/-- `DamageCalculator.calculateBasicAttackDamage(attacker, target, options)`.
`u1` and `u2` are the two `Math.random()` draws (each in `[0,1)`): the ±10%
variation and the critical roll.  The target argument of the source is only
used for the stats-presence check. -/
def DamageCalculator.calculateBasicAttackDamage (attacker : Entity)
    (opts : AttackOptions) (u1 u2 : ℚ) : DamageCalcOutcome :=
  let randomFactor := 9/10 + u1 * (2/10)
  let base1 := attacker.combatStats.attack * randomFactor
  let criticalRoll := u2 * 100
  let isCritical := decide (criticalRoll ≤ attacker.combatStats.critChance)
  let base2 := if isCritical then base1 * attacker.combatStats.critMultiplier
    else base1
  -- `if (options.damageMultiplier) baseDamage *= options.damageMultiplier`
  let base3 := match opts.damageMultiplier with
    | some m => if m = 0 then base2 else base2 * m
    | none => base2
  { damage := jsRound base3, dtype := opts.damageType.getD .physical,
    critical := isCritical }

/-! ### CombatSystem.js — processAttack -/

/-- Result object of `CombatSystem.processAttack` / `processSkillUse`. -/
structure AttackCallResult where
  success : Bool
  reason : Option FailReason
  damage : ℤ
  critical : Bool
  targetDied : Bool
deriving DecidableEq

/-- `CombatSystem.processAttack(attacker, target, options)`.  `setupEntity`
registration is idempotent bookkeeping with no effect on the stat state
modelled here; the clock and the two random draws are explicit.
`registerAttack` only touches `lastAttackTime`, which the damage calculator
never reads, so passing the pre-registration attacker to the calculator
matches the source's in-place mutation order. -/
def CombatSystem.processAttack (attacker target : Entity)
    (opts : AttackOptions) (now u1 u2 : ℚ) :
    Entity × Entity × AttackCallResult :=
  match DamageCalculator.validateAttack attacker target opts now with
  | some reason =>
      (attacker, target,
        { success := false, reason := some reason, damage := 0,
          critical := false, targetDied := false })
  | none =>
      if ¬attacker.combatStats.canAttack now then
        (attacker, target,
          { success := false, reason := some .stillInCooldown, damage := 0,
            critical := false, targetDied := false })
      else
        let attacker2 : Entity :=
          { attacker with combatStats := attacker.combatStats.registerAttack now }
        let dcalc := DamageCalculator.calculateBasicAttackDamage attacker opts u1 u2
        let applied := target.combatStats.applyDamage (dcalc.damage : ℚ)
          dcalc.dtype dcalc.critical
        (attacker2, { target with combatStats := applied.1 },
          { success := true, reason := none, damage := applied.2.damage,
            critical := dcalc.critical, targetDied := applied.2.targetDied })

/-! ### Claim C3 -/

/-- Stat block for the C3 failing input: attack range `1.5` (knight /
`MELEE_RANGE`). -/
def c3AttStats : CombatStats :=
  { maxHp := 100, hp := 100, maxMp := 50, mp := 50, attack := 10, defense := 5,
    level := 1, critChance := 0, critMultiplier := 3/2, attackRange := 3/2,
    resistances := Resistances.zero, isDead := false, lastAttackTime := 0,
    attackCooldown := 1000 }

/-- C3 failing input, attacker at the origin. -/
def c3Attacker : Entity :=
  { id := 1, position := { x := 0, y := 0, z := 0 }, radius := 1/2,
    combatStats := c3AttStats }

/-- C3 failing input, target at distance `2.6` with collision radius `0.5`. -/
def c3Target : Entity :=
  { id := 2, position := { x := 13/5, y := 0, z := 0 }, radius := 1/2,
    combatStats := c3AttStats }

/-- C3 (code bug evidence): at distance `2.6`, with nominal range `1.5` and
target radius `0.5`, the implementation is in range (it multiplies the range
by `1 + 1.2 = 2.2`, reach `3.8`), while the documented 20% tolerance
(`range * 1.2`, reach `2.3` — the formula of the spec, of the config comment
`(20%)`, and of the player-side check) is out of range. -/
theorem isInRange_tolerance_code_bug :
    DamageCalculator.isInRange c3Attacker c3Target none = true ∧
    isInRangeSpec c3Attacker c3Target none = false ∧
    (1 + ATTACK_RANGE_TOLERANCE) = 11/5 := by
  refine ⟨?_, ?_, by norm_num [ATTACK_RANGE_TOLERANCE]⟩
  · norm_num [DamageCalculator.isInRange, c3Attacker, c3Target, c3AttStats,
      jsOrOpt, jsOr, ATTACK_RANGE_TOLERANCE]
  · norm_num [isInRangeSpec, c3Attacker, c3Target, c3AttStats, jsOrOpt, jsOr]

/-! ### Claim C4 -/

lemma CombatSystem.processAttack_success_attacker (attacker target : Entity)
    (opts : AttackOptions) (now u1 u2 : ℚ)
    (h : (CombatSystem.processAttack attacker target opts now u1 u2).2.2.success = true) :
    (CombatSystem.processAttack attacker target opts now u1 u2).1 =
      { attacker with combatStats := attacker.combatStats.registerAttack now } := by
  unfold CombatSystem.processAttack at h ⊢
  cases hv : DamageCalculator.validateAttack attacker target opts now with
  | some r => rw [hv] at h; simp at h
  | none =>
    rw [hv] at h
    by_cases hc : attacker.combatStats.canAttack now = true
    · simp [hc]
    · simp [hc] at h

/-- C4 (amended): if a `processAttack` call succeeds at time `now` and a
second call by the same attacker follows after less than `attackCooldown`
milliseconds, the second call fails and leaves the target untouched; when
the attacker and the target are both still alive, the failure reason is the
cooldown one (a dead attacker or a target killed by the first hit yields the
corresponding dead-entity reason instead, see the counterexample). -/
theorem processAttack_cooldown_blocks
    (attacker target attacker2 target2 : Entity) (res1 : AttackCallResult)
    (opts opts2 : AttackOptions) (now now2 u1 u2 v1 v2 : ℚ)
    (hfirst : CombatSystem.processAttack attacker target opts now u1 u2 =
      (attacker2, target2, res1))
    (hsuccess : res1.success = true)
    (hcool : now2 - now < attacker.combatStats.attackCooldown)
    (halive : attacker.combatStats.isDead = false)
    (htalive : target2.combatStats.isDead = false) :
    (CombatSystem.processAttack attacker2 target2 opts2 now2 v1 v2).2.2.success = false ∧
    (CombatSystem.processAttack attacker2 target2 opts2 now2 v1 v2).2.2.reason =
      some FailReason.attackerCooldown ∧
    (CombatSystem.processAttack attacker2 target2 opts2 now2 v1 v2).2.1 = target2 := by
  have ha2 : attacker2 =
      { attacker with combatStats := attacker.combatStats.registerAttack now } := by
    have hs : (CombatSystem.processAttack attacker target opts now u1 u2).2.2.success = true := by
      rw [hfirst]; exact hsuccess
    have := CombatSystem.processAttack_success_attacker attacker target opts now u1 u2 hs
    rw [hfirst] at this
    exact this
  have had : attacker2.combatStats.isDead = false := by
    rw [ha2]; simpa [CombatStats.registerAttack] using halive
  have hcan : attacker2.combatStats.canAttack now2 = false := by
    rw [ha2]
    unfold CombatStats.canAttack CombatStats.registerAttack
    simp only [halive]
    simp only [Bool.not_false, Bool.true_and]
    exact decide_eq_false (by simp; linarith)
  have hval : DamageCalculator.validateAttack attacker2 target2 opts2 now2 =
      some FailReason.attackerCooldown := by
    unfold DamageCalculator.validateAttack
    simp [had, htalive, hcan]
  unfold CombatSystem.processAttack
  rw [hval]
  exact ⟨rfl, rfl, rfl⟩

/-- Attacker stat block for the C4 scenarios (cooldown 1000 ms). -/
def c4AttStats : CombatStats :=
  { maxHp := 100, hp := 100, maxMp := 50, mp := 50, attack := 10, defense := 5,
    level := 1, critChance := 0, critMultiplier := 3/2, attackRange := 3/2,
    resistances := Resistances.zero, isDead := false, lastAttackTime := 0,
    attackCooldown := 1000 }

/-- Target stat block that survives the C4 witness attack. -/
def c4TgtStats : CombatStats :=
  { maxHp := 100, hp := 100, maxMp := 50, mp := 50, attack := 10, defense := 0,
    level := 1, critChance := 0, critMultiplier := 3/2, attackRange := 3/2,
    resistances := Resistances.zero, isDead := false, lastAttackTime := 0,
    attackCooldown := 1000 }

/-- C4 attacker entity. -/
def c4Attacker : Entity :=
  { id := 1, position := { x := 0, y := 0, z := 0 }, radius := 1/2,
    combatStats := c4AttStats }

/-- C4 witness target entity. -/
def c4Target : Entity :=
  { id := 2, position := { x := 0, y := 0, z := 0 }, radius := 1/2,
    combatStats := c4TgtStats }

/-- C4 witness: a concrete successful attack at `t = 5000` followed by a
second call at `t = 5400 < 5000 + 1000`, which fails with the cooldown
reason. -/
theorem processAttack_cooldown_blocks_witness :
    (CombatSystem.processAttack c4Attacker c4Target AttackOptions.default 5000 (1/2) (1/2)).2.2.success = true ∧
    (5400 : ℚ) - 5000 < c4Attacker.combatStats.attackCooldown ∧
    c4Attacker.combatStats.isDead = false ∧
    (CombatSystem.processAttack c4Attacker c4Target AttackOptions.default 5000 (1/2) (1/2)).2.1.combatStats.isDead = false ∧
    (CombatSystem.processAttack
      (CombatSystem.processAttack c4Attacker c4Target AttackOptions.default 5000 (1/2) (1/2)).1
      (CombatSystem.processAttack c4Attacker c4Target AttackOptions.default 5000 (1/2) (1/2)).2.1
      AttackOptions.default 5400 (1/3) (1/3)).2.2.reason = some FailReason.attackerCooldown := by
  have hs : (CombatSystem.processAttack c4Attacker c4Target AttackOptions.default 5000 (1/2) (1/2)).2.2.success = true := by
    norm_num [CombatSystem.processAttack, DamageCalculator.validateAttack,
      DamageCalculator.isInRange, CombatStats.canAttack, c4Attacker, c4Target,
      c4AttStats, c4TgtStats, jsOrOpt, jsOr, ATTACK_RANGE_TOLERANCE,
      AttackOptions.default]
  have ht : (CombatSystem.processAttack c4Attacker c4Target AttackOptions.default 5000 (1/2) (1/2)).2.1.combatStats.isDead = false := by
    norm_num [CombatSystem.processAttack, DamageCalculator.validateAttack,
      DamageCalculator.isInRange, CombatStats.canAttack,
      DamageCalculator.calculateBasicAttackDamage, CombatStats.applyDamage,
      CombatStats.roundedDamage, CombatStats.finalDamage,
      CombatStats.absorbedByDefense, CombatStats.damageResistance,
      Resistances.get, DamageType.isTrueType, jsRound, CombatStats.die,
      c4Attacker, c4Target, c4AttStats, c4TgtStats, Resistances.zero,
      jsOrOpt, jsOr, ATTACK_RANGE_TOLERANCE, AttackOptions.default]
  refine ⟨hs, by norm_num [c4Attacker, c4AttStats], rfl, ht, ?_⟩
  exact (processAttack_cooldown_blocks c4Attacker c4Target
    (CombatSystem.processAttack c4Attacker c4Target AttackOptions.default 5000 (1/2) (1/2)).1
    (CombatSystem.processAttack c4Attacker c4Target AttackOptions.default 5000 (1/2) (1/2)).2.1
    (CombatSystem.processAttack c4Attacker c4Target AttackOptions.default 5000 (1/2) (1/2)).2.2
    AttackOptions.default AttackOptions.default 5000 5400 (1/2) (1/2) (1/3) (1/3)
    rfl hs (by norm_num [c4Attacker, c4AttStats]) rfl ht).2.1

/-- Low-hp stat block: the C4 counterexample target dies to the first hit. -/
def c4KillStats : CombatStats :=
  { maxHp := 20, hp := 5, maxMp := 0, mp := 0, attack := 10, defense := 0,
    level := 1, critChance := 0, critMultiplier := 3/2, attackRange := 3/2,
    resistances := Resistances.zero, isDead := false, lastAttackTime := 0,
    attackCooldown := 1000 }

/-- C4 counterexample target entity. -/
def c4KillTarget : Entity :=
  { id := 3, position := { x := 0, y := 0, z := 0 }, radius := 1/2,
    combatStats := c4KillStats }

/-- C4 counterexample: when the first (successful) attack kills the target,
the second call inside the cooldown window fails with the target-dead
reason, not a cooldown-related one — refuting the claim as stated. -/
theorem processAttack_cooldown_reason_counterexample :
    (CombatSystem.processAttack c4Attacker c4KillTarget AttackOptions.default 5000 (1/2) (1/2)).2.2.success = true ∧
    (5400 : ℚ) - 5000 < c4Attacker.combatStats.attackCooldown ∧
    (CombatSystem.processAttack
      (CombatSystem.processAttack c4Attacker c4KillTarget AttackOptions.default 5000 (1/2) (1/2)).1
      (CombatSystem.processAttack c4Attacker c4KillTarget AttackOptions.default 5000 (1/2) (1/2)).2.1
      AttackOptions.default 5400 (1/3) (1/3)).2.2.success = false ∧
    (CombatSystem.processAttack
      (CombatSystem.processAttack c4Attacker c4KillTarget AttackOptions.default 5000 (1/2) (1/2)).1
      (CombatSystem.processAttack c4Attacker c4KillTarget AttackOptions.default 5000 (1/2) (1/2)).2.1
      AttackOptions.default 5400 (1/3) (1/3)).2.2.reason = some FailReason.targetDead ∧
    FailReason.targetDead ≠ FailReason.attackerCooldown ∧
    FailReason.targetDead ≠ FailReason.stillInCooldown := by
  refine ⟨?_, by norm_num [c4Attacker, c4AttStats], ?_, ?_, by decide, by decide⟩ <;>
    norm_num [CombatSystem.processAttack, DamageCalculator.validateAttack,
      DamageCalculator.isInRange, CombatStats.canAttack, CombatStats.registerAttack,
      DamageCalculator.calculateBasicAttackDamage, CombatStats.applyDamage,
      CombatStats.roundedDamage, CombatStats.finalDamage,
      CombatStats.absorbedByDefense, CombatStats.damageResistance,
      Resistances.get, DamageType.isTrueType, jsRound, CombatStats.die,
      c4Attacker, c4KillTarget, c4AttStats, c4KillStats, Resistances.zero,
      jsOrOpt, jsOr, ATTACK_RANGE_TOLERANCE, AttackOptions.default]

/-! ### CombatSystem.js — processSkillUse (claim C9) -/

/-- A skill definition as consumed by `processSkillUse` and
`calculateSkillDamage` (declared status effects are handled by the status
engine, modelled in its own section). -/
structure Skill where
  id : ℕ
  mpCost : ℚ
  baseDamage : Option ℚ
  scalingAttack : Option ℚ
  critChanceBonus : Option ℚ
  critMultiplier : Option ℚ
  damageType : Option DamageType
  range : Option ℚ
  ignoreRange : Bool
  canTargetDead : Bool
deriving DecidableEq

/-- `DamageCalculator.calculateSkillDamage(attacker, target, skill, options)`.
`u1`, `u2` are the ±5% variation and critical `Math.random()` draws; the
target argument of the source is only used for the stats-presence check. -/
def DamageCalculator.calculateSkillDamage (attacker : Entity) (skill : Skill)
    (u1 u2 : ℚ) : DamageCalcOutcome :=
  let base1 := jsOrOpt skill.baseDamage attacker.combatStats.attack
  -- `if (skill.scaling) { if (skill.scaling.attack) base += attack*scaling.attack }`
  let base2 := match skill.scalingAttack with
    | some sc => if sc = 0 then base1 else base1 + attacker.combatStats.attack * sc
    | none => base1
  let randomFactor := 19/20 + u1 * (1/10)
  let base3 := base2 * randomFactor
  -- `skill.critChanceBonus ? critChance + bonus : critChance`
  let critChance := match skill.critChanceBonus with
    | some b => if b = 0 then attacker.combatStats.critChance
        else attacker.combatStats.critChance + b
    | none => attacker.combatStats.critChance
  let criticalRoll := u2 * 100
  let isCritical := decide (criticalRoll ≤ critChance)
  let base4 := if isCritical then
      base3 * jsOrOpt skill.critMultiplier attacker.combatStats.critMultiplier
    else base3
  { damage := jsRound base4, dtype := skill.damageType.getD .physical,
    critical := isCritical }

/-- The `customOptions` object built by `processSkillUse` (with the common
empty extra-options argument, whose spread adds nothing). -/
def Skill.customOptions (skill : Skill) : AttackOptions :=
  { canTargetDead := skill.canTargetDead, ignoreRange := skill.ignoreRange,
    range := skill.range, damageMultiplier := none, damageType := none }

/-- `CombatSystem.processSkillUse(attacker, target, skill, options)`: checks
and consumes MP **before** validating the attack; a validation failure
returns `{success:false}` with the MP already gone.  The application of
`skill.effects` after the damage is the status engine's `applyEffect`,
modelled in the status section. -/
def CombatSystem.processSkillUse (attacker target : Entity) (skill : Skill)
    (now u1 u2 : ℚ) : Entity × Entity × AttackCallResult :=
  -- `if (skill.mpCost && !attacker.combatStats.consumeMp(skill.mpCost))`
  if skill.mpCost ≠ 0 ∧ ¬(attacker.combatStats.consumeMp skill.mpCost).2 then
    (attacker, target,
      { success := false, reason := some .insufficientMp, damage := 0,
        critical := false, targetDied := false })
  else
    let attacker2 : Entity := if skill.mpCost ≠ 0 then
        { attacker with combatStats := (attacker.combatStats.consumeMp skill.mpCost).1 }
      else attacker
    -- the skill-cooldown check is an unimplemented TO-DO in the source
    match DamageCalculator.validateAttack attacker2 target skill.customOptions now with
    | some reason =>
        (attacker2, target,
          { success := false, reason := some reason, damage := 0,
            critical := false, targetDied := false })
    | none =>
        let dcalc := DamageCalculator.calculateSkillDamage attacker2 skill u1 u2
        let applied := target.combatStats.applyDamage (dcalc.damage : ℚ)
          dcalc.dtype dcalc.critical
        (attacker2, { target with combatStats := applied.1 },
          { success := true, reason := none, damage := applied.2.damage,
            critical := dcalc.critical, targetDied := applied.2.targetDied })

/-- C9: when the MP consumption succeeds but the subsequent attack validation
fails, `processSkillUse` returns `{success:false}` with the attacker's MP
already reduced by `mpCost` and never refunded; the target is untouched. -/
theorem processSkillUse_mp_not_refunded (attacker target : Entity)
    (skill : Skill) (now u1 u2 : ℚ) (r : FailReason)
    (hcost : skill.mpCost ≠ 0)
    (hmp : skill.mpCost ≤ attacker.combatStats.mp)
    (hval : DamageCalculator.validateAttack
      { attacker with combatStats := (attacker.combatStats.consumeMp skill.mpCost).1 }
      target skill.customOptions now = some r) :
    (CombatSystem.processSkillUse attacker target skill now u1 u2).2.2.success = false ∧
    (CombatSystem.processSkillUse attacker target skill now u1 u2).1.combatStats.mp =
      attacker.combatStats.mp - skill.mpCost ∧
    (CombatSystem.processSkillUse attacker target skill now u1 u2).2.1 = target := by
  have hok : (attacker.combatStats.consumeMp skill.mpCost).2 = true := by
    unfold CombatStats.consumeMp
    simp [not_lt.2 hmp]
  have hmp1 : (attacker.combatStats.consumeMp skill.mpCost).1.mp =
      attacker.combatStats.mp - skill.mpCost := by
    unfold CombatStats.consumeMp
    simp [not_lt.2 hmp]
  unfold CombatSystem.processSkillUse
  rw [if_neg (by simp [hok]), if_pos hcost]
  simp only [hval]
  exact ⟨trivial, hmp1, trivial⟩

/-- C9 witness attacker: 50 MP, alive. -/
def c9Attacker : Entity :=
  { id := 1, position := { x := 0, y := 0, z := 0 }, radius := 1/2,
    combatStats := c4AttStats }

/-- C9 witness target: already dead, so validation fails after the MP was
consumed. -/
def c9DeadTarget : Entity :=
  { id := 2, position := { x := 0, y := 0, z := 0 }, radius := 1/2,
    combatStats :=
      { maxHp := 100, hp := 0, maxMp := 50, mp := 50, attack := 10,
        defense := 0, level := 1, critChance := 0, critMultiplier := 3/2,
        attackRange := 3/2, resistances := Resistances.zero, isDead := true,
        lastAttackTime := 0, attackCooldown := 1000 } }

/-- C9 witness skill: mpCost 10, like the provisional test skill of the
source. -/
def c9Skill : Skill :=
  { id := 1, mpCost := 10, baseDamage := some 50, scalingAttack := some (3/2),
    critChanceBonus := none, critMultiplier := none,
    damageType := some .magical, range := some 10, ignoreRange := false,
    canTargetDead := false }

/-- C9 witness: casting on a dead target consumes 10 MP (50 → 40), fails, and
the MP stays consumed. -/
theorem processSkillUse_mp_not_refunded_witness :
    c9Skill.mpCost ≠ 0 ∧ c9Skill.mpCost ≤ c9Attacker.combatStats.mp ∧
    (CombatSystem.processSkillUse c9Attacker c9DeadTarget c9Skill 5000 (1/2) (1/2)).2.2.success = false ∧
    (CombatSystem.processSkillUse c9Attacker c9DeadTarget c9Skill 5000 (1/2) (1/2)).1.combatStats.mp =
      c9Attacker.combatStats.mp - c9Skill.mpCost := by
  have hval : DamageCalculator.validateAttack
      { c9Attacker with
        combatStats := (c9Attacker.combatStats.consumeMp c9Skill.mpCost).1 }
      c9DeadTarget c9Skill.customOptions 5000 = some FailReason.targetDead := by
    norm_num [DamageCalculator.validateAttack, CombatStats.consumeMp,
      c9Attacker, c9DeadTarget, c9Skill, Skill.customOptions, c4AttStats]
  have h := processSkillUse_mp_not_refunded c9Attacker c9DeadTarget c9Skill
    5000 (1/2) (1/2) FailReason.targetDead
    (by norm_num [c9Skill]) (by norm_num [c9Skill, c9Attacker, c4AttStats]) hval
  exact ⟨by norm_num [c9Skill], by norm_num [c9Skill, c9Attacker, c4AttStats],
    h.1, h.2.1⟩

/-! ### monster.js — Monster.takeDamage (claim C10) -/

/-- The hp/death fields of a `Monster` entity touched by `takeDamage`; the
visual effects, the combat-stats mirror and the aggro notification of the
source act on other state and are modelled elsewhere. -/
structure MonsterBlock where
  hp : ℚ
  isDead : Bool
deriving DecidableEq

/-- `Monster.takeDamage(damage, attackerId)` — coerces the damage
(`Number(damage) || 0`, a non-numeric argument is `none`), clamps it to at
least `1`, no-ops when dead, floors hp at `0` and dies at `0`; returns the
remaining hp (`0` when the hit was lethal). -/
def Monster.takeDamage (m : MonsterBlock) (rawDamage : Option ℚ) :
    MonsterBlock × ℚ :=
  let damage := max 1 (jsNumberOr0 rawDamage)
  if m.isDead then (m, 0)
  else
    let hp2 := max 0 (m.hp - damage)
    if hp2 ≤ 0 then ({ hp := 0, isDead := true }, 0)
    else ({ hp := hp2, isDead := m.isDead }, hp2)

/-- C10: every `takeDamage` call on a living monster (hp ≥ 1) lowers hp by at
least `1` and keeps it nonnegative — for any damage argument, including
zero, negative, and non-numeric ones. -/
theorem monster_takeDamage_at_least_one (m : MonsterBlock) (raw : Option ℚ)
    (halive : m.isDead = false) (hhp : 1 ≤ m.hp) :
    (Monster.takeDamage m raw).1.hp ≤ m.hp - 1 ∧
      0 ≤ (Monster.takeDamage m raw).1.hp := by
  have hdam : 1 ≤ max 1 (jsNumberOr0 raw) := le_max_left 1 _
  unfold Monster.takeDamage
  simp only [halive, Bool.false_eq_true, if_false]
  by_cases h2 : max 0 (m.hp - max 1 (jsNumberOr0 raw)) ≤ 0
  · simp only [h2, if_pos]
    exact ⟨by linarith, le_refl 0⟩
  · simp only [h2, if_neg, not_false_eq_true]
    constructor
    · exact max_le (by linarith) (by linarith)
    · exact le_max_left 0 _

/-- C10 witness: a 20-hp living monster hit with damage `-5` (clamped to `1`)
ends at hp ≤ 19 and nonnegative. -/
theorem monster_takeDamage_at_least_one_witness :
    (({ hp := 20, isDead := false } : MonsterBlock).isDead = false) ∧
    ((1 : ℚ) ≤ ({ hp := 20, isDead := false } : MonsterBlock).hp) ∧
    (Monster.takeDamage { hp := 20, isDead := false } (some (-5))).1.hp ≤
      ({ hp := 20, isDead := false } : MonsterBlock).hp - 1 ∧
    0 ≤ (Monster.takeDamage { hp := 20, isDead := false } (some (-5))).1.hp :=
  ⟨rfl, by norm_num,
    (monster_takeDamage_at_least_one { hp := 20, isDead := false } (some (-5))
      rfl (by norm_num)).1,
    (monster_takeDamage_at_least_one { hp := 20, isDead := false } (some (-5))
      rfl (by norm_num)).2⟩

/-! ### StatusEffect.js — effects and their manager (claim C7) -/

/-- A `StatusEffect` instance.  The apply/remove/tick hook closures carry no
state of their own; the two timers are modelled as whether their handle is
set.  The source's `stacks` field is called `stackCount` here (its source
name is a reserved token in this environment). -/
structure StatusEffect where
  id : ℕ
  duration : ℚ
  tickInterval : ℚ
  isStackable : Bool
  maxStacks : ℤ
  startTime : ℚ
  endTime : ℚ
  stackCount : ℤ
  isActive : Bool
  removalTimer : Bool
  tickTimer : Bool
deriving DecidableEq

/-- The `StatusEffect` constructor: configuration fields set, dynamic state
zeroed, `stacks = 1`. -/
def StatusEffect.make (id : ℕ) (duration tickInterval : ℚ)
    (isStackable : Bool) (maxStacks : ℤ) : StatusEffect :=
  { id := id, duration := duration, tickInterval := tickInterval,
    isStackable := isStackable, maxStacks := maxStacks, startTime := 0,
    endTime := 0, stackCount := 1, isActive := false, removalTimer := false,
    tickTimer := false }

/-- `StatusEffect.apply(target, source, options)`: records start/end time
(`endTime = 0` when permanent), sets `stacks = options.stacks || 1`,
schedules the removal timer when `duration > 0` and the tick timer when a
tick interval is positive (the default tick hook is always truthy), and runs
the apply hook. -/
def StatusEffect.applyTo (e : StatusEffect) (now : ℚ) (optStacks : Option ℤ) :
    StatusEffect :=
  { e with startTime := now,
           endTime := if 0 < e.duration then now + e.duration else 0,
           stackCount := match optStacks with
             | some s => if s = 0 then 1 else s
             | none => 1,
           isActive := true,
           removalTimer := 0 < e.duration,
           tickTimer := 0 < e.tickInterval }

/-- `StatusEffect.remove()`: clears the timers, runs the remove hook, and
deactivates; a no-op when already inactive.  It does **not** touch the
holding manager's map. -/
def StatusEffect.remove (e : StatusEffect) : StatusEffect :=
  if ¬e.isActive then e
  else { e with isActive := false, removalTimer := false, tickTimer := false }

/-- `StatusEffect.addStacks(amount)`: stacks capped at `maxStacks`; a no-op
on non-stackable or inactive effects. -/
def StatusEffect.addStacks (e : StatusEffect) (amount : ℤ) : StatusEffect :=
  if ¬e.isStackable ∨ ¬e.isActive then e
  else { e with stackCount := min e.maxStacks (e.stackCount + amount) }

/-- `StatusEffect.removeStacks(amount)`: stacks floored at `0`; reaching `0`
triggers `remove()` (which deactivates the effect but leaves it in the
manager). -/
def StatusEffect.removeStacks (e : StatusEffect) (amount : ℤ) : StatusEffect :=
  if ¬e.isStackable ∨ ¬e.isActive then e
  else
    let e2 : StatusEffect := { e with stackCount := max 0 (e.stackCount - amount) }
    if e2.stackCount = 0 then e2.remove else e2

/-- `StatusEffect.refreshDuration()`: restarts the countdown; no-op on
permanent or inactive effects. -/
def StatusEffect.refreshDuration (e : StatusEffect) (now : ℚ) : StatusEffect :=
  if ¬e.isActive ∨ e.duration = 0 then e
  else { e with startTime := now, endTime := now + e.duration,
                removalTimer := true }

/-- `StatusEffect.isExpired()`. -/
def StatusEffect.isExpired (e : StatusEffect) (now : ℚ) : Bool :=
  decide (0 < e.duration) && decide (e.endTime < now)

/-- A per-entity `StatusEffectManager`: the `Map` id → effect is an
association list whose entries have pairwise-distinct ids (insertion order
is irrelevant per the data model). -/
structure StatusEffectManager where
  effects : List StatusEffect
deriving DecidableEq

/-- `StatusEffectManager.getEffect(effectId)`. -/
def StatusEffectManager.getEffect (mgr : StatusEffectManager) (id : ℕ) :
    Option StatusEffect :=
  mgr.effects.find? (fun e => e.id == id)

/-- `StatusEffectManager.hasEffect(effectId)`. -/
def StatusEffectManager.hasEffect (mgr : StatusEffectManager) (id : ℕ) : Bool :=
  (mgr.getEffect id).isSome

/-- `StatusEffectManager.applyEffect(effect, source, options)` with the
common empty options: re-applying an id held in the map adds
`effect.stacks || 1` stacks when stackable (on the held instance) or
refreshes its duration; a new id is applied and inserted.  It never creates
a duplicate entry. -/
def StatusEffectManager.applyEffect (mgr : StatusEffectManager)
    (eff : StatusEffect) (now : ℚ) : StatusEffectManager :=
  match mgr.getEffect eff.id with
  | some _ =>
      { effects := mgr.effects.map (fun e =>
          if e.id == eff.id then
            (if e.isStackable then
              e.addStacks (if eff.stackCount = 0 then 1 else eff.stackCount)
            else e.refreshDuration now)
          else e) }
  | none =>
      { effects := mgr.effects ++ [eff.applyTo now none] }

/-- Script-level stack removal on a held effect:
`manager.getEffect(id).removeStacks(amount)` mutates the held instance in
place; the manager has no dedicated method and its map keeps the entry. -/
def StatusEffectManager.removeStacksOn (mgr : StatusEffectManager) (id : ℕ)
    (amount : ℤ) : StatusEffectManager :=
  { effects := mgr.effects.map (fun e =>
      if e.id == id then e.removeStacks amount else e) }

/-- `StatusEffectManager.update(deltaTime)`: the expiry sweep deletes (and
`remove()`s) exactly the expired entries. -/
def StatusEffectManager.update (mgr : StatusEffectManager) (now : ℚ) :
    StatusEffectManager :=
  { effects := (mgr.effects.filter (fun e => !e.isExpired now)).map id }

/-- The C7 effect: stackable, `maxStacks = 3`, permanent (duration 0). -/
def c7Effect : StatusEffect := StatusEffect.make 7 0 0 true 3

/-- The manager state after applying `c7Effect` five times in a row. -/
def c7After5 : StatusEffectManager :=
  ((((({ effects := [] } : StatusEffectManager).applyEffect c7Effect 1000
    ).applyEffect c7Effect 1001).applyEffect c7Effect 1002
    ).applyEffect c7Effect 1003).applyEffect c7Effect 1004

/-- …then removing 2 stacks from the held 3-stack effect. -/
def c7After5Minus2 : StatusEffectManager := c7After5.removeStacksOn 7 2

/-- …then removing the last remaining stack. -/
def c7AfterLast : StatusEffectManager := c7After5Minus2.removeStacksOn 7 1

/-- C7 (amended): five applications of a stackable maxStacks-3 effect leave
exactly 3 stacks (the count climbs 1, 2, 3, 3, 3 — always within
`[0, maxStacks]`); removing 2 stacks leaves 1 active stack; removing the
last stack deactivates the effect (its remove hook runs, `isActive` becomes
`false`, stacks 0) — but the entry stays in the holder's map until the
expiry sweep or an explicit `removeEffect`, rather than being removed
entirely. -/
theorem statusEffect_stacking :
    (c7After5.getEffect 7).map StatusEffect.stackCount = some 3 ∧
    (c7After5Minus2.getEffect 7).map StatusEffect.stackCount = some 1 ∧
    (c7After5Minus2.getEffect 7).map StatusEffect.isActive = some true ∧
    (c7AfterLast.getEffect 7).map StatusEffect.stackCount = some 0 ∧
    (c7AfterLast.getEffect 7).map StatusEffect.isActive = some false ∧
    c7AfterLast.hasEffect 7 = true ∧
    ((((({ effects := [] } : StatusEffectManager).applyEffect c7Effect 1000
      ).getEffect 7).map StatusEffect.stackCount = some 1) ∧
     (((({ effects := [] } : StatusEffectManager).applyEffect c7Effect 1000
      ).applyEffect c7Effect 1001).getEffect 7).map StatusEffect.stackCount = some 2 ∧
     ((((({ effects := [] } : StatusEffectManager).applyEffect c7Effect 1000
      ).applyEffect c7Effect 1001).applyEffect c7Effect 1002).getEffect 7).map
        StatusEffect.stackCount = some 3) := by
  decide

/-- C7 counterexample: after the claimed removal of the last stack the holder
still has the effect (`hasEffect` is `true`, the entry survives in the map,
merely deactivated) — refuting "removes the effect entirely from the
holder". -/
theorem statusEffect_zero_stacks_not_removed_counterexample :
    c7AfterLast.hasEffect 7 = true ∧
    (c7AfterLast.getEffect 7).map StatusEffect.isActive = some false ∧
    c7AfterLast.effects.length = 1 := by
  decide

/-! ### Listener broadcasts (claim C8) -/

/-- A registered listener, represented by whether its invocation throws. -/
abbrev Listener := Bool

/-- `CombatSystem._notifyAttack` / `_notifyDamage` / `_notifyDeath` /
`_notifyHeal`: `for (const l of listeners) { try { l(...) } catch { log } }`.
Returns the indices (from `i`) of the listeners invoked: the per-listener
try/catch means all of them, and the broadcast itself never throws. -/
def notifyCaughtFrom (i : ℕ) : List Listener → List ℕ
  | [] => []
  | _ :: rest => i :: notifyCaughtFrom (i + 1) rest

/-- The system-level broadcast over a listener family. -/
def CombatSystem.notifyFamily (ls : List Listener) : List ℕ :=
  notifyCaughtFrom 0 ls

/-- `CombatStats._notifyDamageListeners` / `_notifyHealListeners` /
`_notifyDeathListeners` / `_notifyReviveListeners`:
`for (const l of listeners) { l(...) }` — no try/catch.  `.error invoked`
when a listener throws (the exception aborts the loop and propagates out of
the notify call), `.ok invoked` otherwise. -/
def notifyUncaughtFrom (i : ℕ) : List Listener → Except (List ℕ) (List ℕ)
  | [] => .ok []
  | throws :: rest =>
    if throws then .error [i]
    else
      match notifyUncaughtFrom (i + 1) rest with
      | .ok is => .ok (i :: is)
      | .error is => .error (i :: is)

/-- The stat-block-level broadcast over a listener family. -/
def CombatStats.notifyFamily (ls : List Listener) : Except (List ℕ) (List ℕ) :=
  notifyUncaughtFrom 0 ls

/-- Whether a stat-block broadcast ran to completion. -/
def broadcastCompletes (r : Except (List ℕ) (List ℕ)) : Bool :=
  match r with
  | .ok _ => true
  | .error _ => false

/-- `CombatStats.applyDamage` together with its damage-listener broadcast:
the hp mutation happens first, then the uncaught loop runs; a throwing
listener makes the whole call throw (the mutation stands, the call does not
complete normally). -/
def CombatStats.applyDamageNotify (s : CombatStats) (amount : ℚ)
    (dtype : DamageType) (critical : Bool) (ls : List Listener) :
    Except (CombatStats × List ℕ) (CombatStats × DamageOutcome × List ℕ) :=
  let r := s.applyDamage amount dtype critical
  match CombatStats.notifyFamily ls with
  | .ok is => .ok (r.1, r.2, is)
  | .error is => .error (r.1, is)

lemma notifyCaughtFrom_eq_range' (ls : List Listener) :
    ∀ i, notifyCaughtFrom i ls = List.range' i ls.length := by
  induction ls with
  | nil => intro i; rfl
  | cons l rest ih =>
      intro i
      simp [notifyCaughtFrom, List.range', ih (i + 1)]

lemma notifyUncaughtFrom_ok_iff (ls : List Listener) :
    ∀ i, broadcastCompletes (notifyUncaughtFrom i ls) =
      ls.all (fun throws => !throws) := by
  induction ls with
  | nil => intro i; rfl
  | cons l rest ih =>
      intro i
      cases l with
      | false =>
          have hstep : notifyUncaughtFrom i (false :: rest) =
              match notifyUncaughtFrom (i + 1) rest with
              | .ok is => .ok (i :: is)
              | .error is => .error (i :: is) := rfl
          rw [hstep]
          cases hr : notifyUncaughtFrom (i + 1) rest with
          | ok is =>
              have hr2 := ih (i + 1)
              rw [hr] at hr2
              simpa [broadcastCompletes] using hr2
          | error is =>
              have hr2 := ih (i + 1)
              rw [hr] at hr2
              simpa [broadcastCompletes] using hr2
      | true => simp [notifyUncaughtFrom, broadcastCompletes]

/-- C8 (amended): the `CombatSystem`-level listener families (attack, damage,
death, heal) are each guarded by a per-listener try/catch, so every
registered listener is invoked no matter which ones throw and the broadcast
never propagates an exception; the `CombatStats`-level stat-block families
(damage, heal, death, revive) have no such guard — their broadcast completes
exactly when no registered listener throws. -/
theorem listener_broadcast_exception_handling (ls : List Listener) :
    CombatSystem.notifyFamily ls = List.range ls.length ∧
    broadcastCompletes (CombatStats.notifyFamily ls) =
      ls.all (fun throws => !throws) := by
  constructor
  · rw [CombatSystem.notifyFamily, notifyCaughtFrom_eq_range' ls 0,
      List.range_eq_range']
  · exact notifyUncaughtFrom_ok_iff ls 0

/-- C8 witness: the broadcast theorem at a concrete two-listener family whose
first listener throws. -/
theorem listener_broadcast_exception_handling_witness :
    CombatSystem.notifyFamily [true, false] = List.range 2 ∧
    broadcastCompletes (CombatStats.notifyFamily [true, false]) =
      ([true, false].all (fun throws => !throws)) :=
  listener_broadcast_exception_handling [true, false]

/-- The stat block hit in the C8 counterexample. -/
def c8Stats : CombatStats :=
  { maxHp := 100, hp := 100, maxMp := 50, mp := 50, attack := 10, defense := 0,
    level := 1, critChance := 0, critMultiplier := 3/2, attackRange := 3/2,
    resistances := Resistances.zero, isDead := false, lastAttackTime := 0,
    attackCooldown := 1000 }

/-- C8 counterexample: with two registered stat-block damage listeners whose
first throws, `applyDamage` propagates the exception — only listener 0 runs,
listener 1 is never invoked, and the call does not complete normally (while
the system-level broadcast with the same listeners invokes both).  This
refutes the claim for the `CombatStats` families. -/
theorem combatStats_listener_not_caught_counterexample :
    CombatStats.notifyFamily [true, false] = .error [0] ∧
    CombatStats.applyDamageNotify c8Stats 10 .trueDmg false [true, false] =
      .error ({ c8Stats with hp := 90 }, [0]) ∧
    CombatSystem.notifyFamily [true, false] = [0, 1] := by
  refine ⟨rfl, ?_, rfl⟩
  have h10 : c8Stats.applyDamage 10 .trueDmg false =
      ({ c8Stats with hp := 90 },
        { damage := 10, absorbed := 0, targetDied := false, critical := false }) := by
    norm_num [CombatStats.applyDamage, CombatStats.roundedDamage,
      CombatStats.finalDamage, CombatStats.absorbedByDefense,
      CombatStats.damageResistance, DamageType.isTrueType, jsRound,
      CombatStats.die, c8Stats, Resistances.zero]
  unfold CombatStats.applyDamageNotify
  rw [h10]
  rfl

/-! ### monsterAI.js — the monster state machine (claims C5, C6)

The embedding follows the second (most complete) `MonsterAI` iteration.
`distanceTo(x) ≤ r` comparisons use the square-root-free equivalent
`0 ≤ r ∧ d² ≤ r·r`.  The mutual recursion of the source
(`setAggroTarget → setState → startAttacking → performAttack →
pursueTarget → …`) is bounded by an explicit fuel parameter; exhausted fuel
returns the state unchanged, and the theorems only take branches whose call
depth fits in the supplied fuel. -/

/-- The AI states. -/
inductive AIState
  | idle
  | wander
  | aggro
  | attack
deriving DecidableEq

/-- The mutable AI fields touched by the aggro/attack behaviors: the three
timer handles are booleans recording whether they are set. -/
structure AIData where
  isActive : Bool
  state : AIState
  aggroTarget : Option ℕ
  wanderTimer : Bool
  aggroTimer : Bool
  attackTimer : Bool
deriving DecidableEq

/-- The monster entity as read by its AI.  `statsLevel`/`statsAttack` are the
optional `combatStats` fields (`none` models a monster without a combat
stat block). -/
structure MonsterEnt where
  id : ℕ
  isDead : Bool
  isMoving : Bool
  hasModel : Bool
  position : Position
  attackRange : ℚ
  aggroRange : ℚ
  statsLevel : Option ℚ
  statsAttack : Option ℚ
  attackDamage : ℚ
  ai : AIData
deriving DecidableEq

/-- A player entity as read by the AI in the modelled configuration (no
combat stat block attached, so `performAttack` falls back to
`player.level || 10` / `player.defense || 20` and damage lands through the
plain `Player.takeDamage` branch). -/
structure PlayerEnt where
  id : ℕ
  isDead : Bool
  hasModel : Bool
  position : Position
  hp : ℚ
  level : ℚ
  defense : ℚ
deriving DecidableEq

/-- `distance(p, q) ≤ r` without the square root:
`√d ≤ r ↔ 0 ≤ r ∧ d ≤ r·r` over the reals. -/
def distanceLE (p q : Position) (r : ℚ) : Bool :=
  let dx := p.x - q.x
  let dy := p.y - q.y
  let dz := p.z - q.z
  decide (0 ≤ r ∧ dx * dx + dy * dy + dz * dz ≤ r * r)

/-- The fallback branch of `Player.takeDamage` (entity without combat
stats): `hp = Math.max(0, hp - damage)`, death at `hp ≤ 0`. -/
def PlayerEnt.takeDamage (p : PlayerEnt) (damage : ℚ) : PlayerEnt :=
  let hp2 := max 0 (p.hp - damage)
  { p with hp := hp2, isDead := p.isDead || decide (hp2 ≤ 0) }

/-- The world as seen by one monster's AI: the monster and the entity
directory's player registry (`entityManager.players`). -/
structure AggroWorld where
  monster : MonsterEnt
  players : ℕ → Option PlayerEnt

/-- `MonsterAI.stopAttacking()`: clears the attack interval. -/
def MonsterAI.stopAttacking (w : AggroWorld) : AggroWorld :=
  { w with monster := { w.monster with
      ai := { w.monster.ai with attackTimer := false } } }

/-- `MonsterAI.loseAggroTarget()`: a no-op without a target; otherwise stops
an active attack interval and schedules the aggro timeout (the target id is
cleared only when that timeout later fires — not here). -/
def MonsterAI.loseAggroTarget (w : AggroWorld) : AggroWorld :=
  if w.monster.ai.aggroTarget = none then w
  else
    let ai1 := if w.monster.ai.state = .attack then
        { w.monster.ai with attackTimer := false }
      else w.monster.ai
    { w with monster := { w.monster with ai := { ai1 with aggroTimer := true } } }

mutual

/-- `MonsterAI.setAggroTarget(playerId)` (the id is given, so the
null-check cannot fire): requires an active AI and a living monster, stops
movement and wandering, stores the new target, transitions to `aggro`, and
starts the pursuit immediately.  `u` is the random draw consumed by a
resulting `performAttack`, if any. -/
def MonsterAI.setAggroTarget (fuel : ℕ) (w : AggroWorld) (playerId : ℕ)
    (u : ℚ) : AggroWorld :=
  match fuel with
  | 0 => w
  | fuel + 1 =>
    if ¬w.monster.ai.isActive then w
    else if w.monster.isDead then w
    else
      let m1 := if w.monster.isMoving then { w.monster with isMoving := false }
        else w.monster
      let m2 := { m1 with ai := { m1.ai with wanderTimer := false } }
      let w2 : AggroWorld := { w with monster := m2 }
      if w2.monster.ai.aggroTarget = some playerId then
        let w3 := if w2.monster.ai.state ≠ .aggro ∧ w2.monster.ai.state ≠ .attack
          then MonsterAI.setState fuel w2 .aggro u else w2
        MonsterAI.pursueTarget fuel w3 u
      else
        let m3 := { w2.monster with ai := { w2.monster.ai with
          aggroTarget := some playerId, aggroTimer := false } }
        let w3 : AggroWorld := { w2 with monster := m3 }
        let w4 := MonsterAI.setState fuel w3 .aggro u
        MonsterAI.pursueTarget fuel w4 u

/-- `MonsterAI.setState(state)`: writes the state, then runs the transition
actions when it changed (`aggro` stops wandering; `attack` stops movement
and calls `startAttacking`). -/
def MonsterAI.setState (fuel : ℕ) (w : AggroWorld) (st : AIState) (u : ℚ) :
    AggroWorld :=
  match fuel with
  | 0 => w
  | fuel + 1 =>
    let oldState := w.monster.ai.state
    let w2 : AggroWorld := { w with monster := { w.monster with
      ai := { w.monster.ai with state := st } } }
    if oldState ≠ st then
      match st with
      | .idle => w2
      | .wander => w2
      | .aggro => { w2 with monster := { w2.monster with
          ai := { w2.monster.ai with wanderTimer := false } } }
      | .attack =>
          let w3 : AggroWorld := { w2 with monster := { w2.monster with
            isMoving := false } }
          MonsterAI.startAttacking fuel w3 u
    else w2

/-- `MonsterAI.startAttacking()`: needs an active AI, a living monster and a
target; forces the `attack` state, stops movement, restarts the attack
interval, and performs one immediate attack. -/
def MonsterAI.startAttacking (fuel : ℕ) (w : AggroWorld) (u : ℚ) : AggroWorld :=
  match fuel with
  | 0 => w
  | fuel + 1 =>
    if ¬w.monster.ai.isActive ∨ w.monster.isDead ∨
        w.monster.ai.aggroTarget = none then w
    else
      let w2 := if w.monster.ai.state ≠ .attack
        then MonsterAI.setState fuel w .attack u else w
      let w3 : AggroWorld := if w2.monster.isMoving then
          { w2 with monster := { w2.monster with isMoving := false } }
        else w2
      let w4 := MonsterAI.stopAttacking w3
      let w5 := MonsterAI.performAttack fuel w4 u
      { w5 with monster := { w5.monster with
        ai := { w5.monster.ai with attackTimer := true } } }

/-- `MonsterAI.performAttack()`: one attack tick.  Gone/model-less targets
lose aggro; a target beyond `attackRange * 1.2` sends the AI back to
pursuit; otherwise the balanced damage
`max(1, floor(monsterAttack · levelFactor · defenseFactor · (0.8 + 0.4u)))`
is applied to the player (through the directory's `damagePlayer`, which in
the modelled configuration falls through to `Player.takeDamage`). -/
def MonsterAI.performAttack (fuel : ℕ) (w : AggroWorld) (u : ℚ) : AggroWorld :=
  match fuel with
  | 0 => w
  | fuel + 1 =>
    if ¬w.monster.ai.isActive ∨ w.monster.isDead ∨
        w.monster.ai.aggroTarget = none then
      MonsterAI.stopAttacking w
    else
      match w.monster.ai.aggroTarget with
      | none => MonsterAI.stopAttacking w
      | some pid =>
        match w.players pid with
        | none => MonsterAI.loseAggroTarget w
        | some p =>
          if ¬p.hasModel then MonsterAI.loseAggroTarget w
          else if ¬w.monster.hasModel then w
          else if ¬distanceLE w.monster.position p.position
              (w.monster.attackRange * (12/10)) then
            let w2 := MonsterAI.setState fuel w .aggro u
            let w3 := MonsterAI.stopAttacking w2
            MonsterAI.pursueTarget fuel w3 u
          else
            let monsterLevel := w.monster.statsLevel.getD 1
            let monsterAttack := w.monster.statsAttack.getD w.monster.attackDamage
            let playerLevel := jsOr p.level 10
            let playerDefense := jsOr p.defense 20
            let levelFactor := max (1/2) (monsterLevel / max 1 playerLevel)
            let defenseFactor := 1 - min (3/4)
              (playerDefense / (playerDefense + 50 + monsterLevel * 5))
            let baseDamage := monsterAttack * levelFactor
            let randomVariation := 4/5 + u * (2/5)
            let finalDamage : ℤ :=
              max 1 (jsFloor (baseDamage * defenseFactor * randomVariation))
            { w with players := fun i =>
                if i = pid then some (p.takeDamage (finalDamage : ℚ))
                else w.players i }

/-- `MonsterAI.pursueTarget()`: stops when inactive/dead; loses aggro on a
missing target or beyond `aggroRange * 1.5`; switches to `attack` within
`attackRange`; otherwise takes one chase step (the geometric update —
normalized direction blended with the collision-avoidance repulsion —
touches only the model position, which no claim observes, and is elided). -/
def MonsterAI.pursueTarget (fuel : ℕ) (w : AggroWorld) (u : ℚ) : AggroWorld :=
  match fuel with
  | 0 => w
  | fuel + 1 =>
    if ¬w.monster.ai.isActive ∨ w.monster.isDead then
      { w with monster := { w.monster with isMoving := false } }
    else
      match w.monster.ai.aggroTarget with
      | none => MonsterAI.loseAggroTarget w
      | some pid =>
        match w.players pid with
        | none => MonsterAI.loseAggroTarget w
        | some p =>
          if ¬p.hasModel then MonsterAI.loseAggroTarget w
          else if ¬w.monster.hasModel then w
          else if distanceLE w.monster.position p.position
              w.monster.attackRange then
            let w2 := MonsterAI.setState fuel w .attack u
            MonsterAI.startAttacking fuel w2 u
          else if ¬distanceLE w.monster.position p.position
              (w.monster.aggroRange * (3/2)) then
            MonsterAI.loseAggroTarget w
          else
            w

end

/-- `CombatSystem._handleEntityDamaged` for a damaged monster: with an
attacker id present, a living monster, an attacker that resolves in the
entity directory, and an attached AI (always the case for `Monster`
instances), force aggro on the attacker.  The directory lookup is modelled
over the player registry — the damage sources of the claim are players. -/
def CombatSystem.handleEntityDamaged (fuel : ℕ) (w : AggroWorld)
    (attackerId : Option ℕ) (u : ℚ) : AggroWorld :=
  match attackerId with
  | none => w
  | some aid =>
    if w.monster.isDead then w
    else if (w.players aid).isSome then MonsterAI.setAggroTarget fuel w aid u
    else w

/-! ### Claim C5 -/

/-- C5 (amended): a living monster damaged with an attacker id acquires aggro
within the damage handler itself — aggro target set to the attacker, state
machine in `aggro` — provided its AI has been activated and the attacker id
resolves in the entity directory (here: a registered player with a model,
outside attack range and within pursuit range, the claim's idle scenario).
The activation requirement is forced by the counterexample below. -/
theorem monster_damage_forces_aggro (fuel : ℕ) (w : AggroWorld) (aid : ℕ)
    (p : PlayerEnt) (u : ℚ)
    (hfuel : 2 ≤ fuel)
    (halive : w.monster.isDead = false)
    (hactive : w.monster.ai.isActive = true)
    (hidle : w.monster.ai.state = .idle)
    (hstill : w.monster.isMoving = false)
    (htgt : w.monster.ai.aggroTarget = none)
    (hplayer : w.players aid = some p)
    (hpmodel : p.hasModel = true)
    (hmmodel : w.monster.hasModel = true)
    (hfar : distanceLE w.monster.position p.position w.monster.attackRange = false)
    (hnear : distanceLE w.monster.position p.position
      (w.monster.aggroRange * (3/2)) = true) :
    (CombatSystem.handleEntityDamaged fuel w (some aid) u).monster.ai.aggroTarget
        = some aid ∧
    (CombatSystem.handleEntityDamaged fuel w (some aid) u).monster.ai.state
        = .aggro := by
  obtain ⟨k, rfl⟩ : ∃ k, fuel = k + 2 := ⟨fuel - 2, by omega⟩
  unfold CombatSystem.handleEntityDamaged
  rw [halive]
  simp only [Bool.false_eq_true, if_false, hplayer, Option.isSome_some, if_true]
  unfold MonsterAI.setAggroTarget
  simp only [hactive, not_true_eq_false, if_false, halive, Bool.false_eq_true,
    hstill, htgt, hidle]
  simp [MonsterAI.setState, MonsterAI.pursueTarget, hplayer, hpmodel, hmmodel,
    hfar, hnear]

/-- The player whose hit triggers the C5 scenarios. -/
def c5Player : PlayerEnt :=
  { id := 1, isDead := false, hasModel := true,
    position := { x := 3, y := 0, z := 0 }, hp := 100, level := 1,
    defense := 20 }

/-- A non-aggressive idle monster with an active AI and no aggro target. -/
def c5Monster : MonsterEnt :=
  { id := 100, isDead := false, isMoving := false, hasModel := true,
    position := { x := 0, y := 0, z := 0 }, attackRange := 1, aggroRange := 5,
    statsLevel := some 1, statsAttack := some 5, attackDamage := 5,
    ai := { isActive := true, state := .idle, aggroTarget := none,
            wanderTimer := true, aggroTimer := false, attackTimer := false } }

/-- The C5 witness world: the idle monster and the registered player. -/
def c5World : AggroWorld :=
  { monster := c5Monster,
    players := fun i => if i = 1 then some c5Player else none }

/-- C5 witness: the aggro theorem applied to the concrete idle monster
damaged by player 1. -/
theorem monster_damage_forces_aggro_witness :
    c5World.monster.isDead = false ∧
    c5World.monster.ai.isActive = true ∧
    c5World.monster.ai.state = AIState.idle ∧
    c5World.players 1 = some c5Player ∧
    distanceLE c5World.monster.position c5Player.position
      c5World.monster.attackRange = false ∧
    distanceLE c5World.monster.position c5Player.position
      (c5World.monster.aggroRange * (3/2)) = true ∧
    (CombatSystem.handleEntityDamaged 2 c5World (some 1) (1/2)).monster.ai.aggroTarget = some 1 ∧
    (CombatSystem.handleEntityDamaged 2 c5World (some 1) (1/2)).monster.ai.state = AIState.aggro := by
  have hfar : distanceLE c5World.monster.position c5Player.position
      c5World.monster.attackRange = false := by
    norm_num [distanceLE, c5World, c5Monster, c5Player]
  have hnear : distanceLE c5World.monster.position c5Player.position
      (c5World.monster.aggroRange * (3/2)) = true := by
    norm_num [distanceLE, c5World, c5Monster, c5Player]
  have h := monster_damage_forces_aggro 2 c5World 1 c5Player (1/2)
    (le_refl 2) rfl rfl rfl rfl rfl rfl rfl rfl hfar hnear
  exact ⟨rfl, rfl, rfl, rfl, hfar, hnear, h.1, h.2⟩

/-- The C5 counterexample monster: identical, but its AI has not been
activated yet (the source activates it on a delay after spawn). -/
def c5MonsterInactive : MonsterEnt :=
  { c5Monster with ai := { c5Monster.ai with isActive := false } }

/-- The C5 counterexample world. -/
def c5WorldInactive : AggroWorld :=
  { monster := c5MonsterInactive,
    players := fun i => if i = 1 then some c5Player else none }

/-- C5 counterexample: a living monster takes damage attributed to a
registered attacker, yet — its AI not being active — `setAggroTarget`
returns early: no aggro target is acquired and the state stays `idle`,
refuting the claim as stated ("whenever ... from any source"). -/
theorem monster_damage_inactive_ai_counterexample :
    c5WorldInactive.monster.isDead = false ∧
    (c5WorldInactive.players 1).isSome = true ∧
    (CombatSystem.handleEntityDamaged 8 c5WorldInactive (some 1) (1/2)).monster.ai.aggroTarget = none ∧
    (CombatSystem.handleEntityDamaged 8 c5WorldInactive (some 1) (1/2)).monster.ai.state = AIState.idle := by
  refine ⟨rfl, rfl, ?_, ?_⟩ <;>
    simp [CombatSystem.handleEntityDamaged, MonsterAI.setAggroTarget,
      c5WorldInactive, c5MonsterInactive, c5Monster]

/-! ### Claim C6 -/

/-- C6 (amended): an in-range monster attack tick damages its aggro target by
`max(1, floor(monsterAttack · levelFactor · defenseFactor · r))` with
`levelFactor = max(0.5, monsterLevel / max(1, targetLevel))`,
`defenseFactor = 1 − min(0.75, defense / (defense + 50 + 5·monsterLevel))`
and `r = 0.8 + 0.4u` for the uniform draw `u ∈ [0,1)`; the floor and the
minimum of 1 are forced by the counterexample below (the raw product is not
what is applied). -/
theorem monster_performAttack_damage (fuel : ℕ) (w : AggroWorld) (pid : ℕ)
    (p : PlayerEnt) (u : ℚ)
    (hfuel : 1 ≤ fuel)
    (hactive : w.monster.ai.isActive = true)
    (halive : w.monster.isDead = false)
    (htgt : w.monster.ai.aggroTarget = some pid)
    (hplayer : w.players pid = some p)
    (hpmodel : p.hasModel = true)
    (hmmodel : w.monster.hasModel = true)
    (hinrange : distanceLE w.monster.position p.position
      (w.monster.attackRange * (12/10)) = true) :
    ((MonsterAI.performAttack fuel w u).players pid).map PlayerEnt.hp =
      some (max 0 (p.hp - (max 1 (jsFloor
        (w.monster.statsAttack.getD w.monster.attackDamage *
          max (1/2) (w.monster.statsLevel.getD 1 / max 1 (jsOr p.level 10)) *
          (1 - min (3/4) (jsOr p.defense 20 /
            (jsOr p.defense 20 + 50 + w.monster.statsLevel.getD 1 * 5))) *
          (4/5 + u * (2/5)))) : ℚ))) := by
  obtain ⟨k, rfl⟩ : ∃ k, fuel = k + 1 := ⟨fuel - 1, by omega⟩
  unfold MonsterAI.performAttack
  simp [hactive, halive, htgt, hplayer, hpmodel, hmmodel, hinrange,
    PlayerEnt.takeDamage]

/-- The player hit in the C6 scenarios (level 1, defense 20, 100 hp). -/
def c6Player : PlayerEnt :=
  { id := 1, isDead := false, hasModel := true,
    position := { x := 0, y := 0, z := 0 }, hp := 100, level := 1,
    defense := 20 }

/-- The attacking monster of the C6 scenarios (attack 10, level 1, in
attack state on player 1). -/
def c6Monster : MonsterEnt :=
  { id := 101, isDead := false, isMoving := false, hasModel := true,
    position := { x := 0, y := 0, z := 0 }, attackRange := 1, aggroRange := 5,
    statsLevel := some 1, statsAttack := some 10, attackDamage := 10,
    ai := { isActive := true, state := .attack, aggroTarget := some 1,
            wanderTimer := false, aggroTimer := false, attackTimer := true } }

/-- The C6 world. -/
def c6World : AggroWorld :=
  { monster := c6Monster,
    players := fun i => if i = 1 then some c6Player else none }

/-- C6 witness: the damage-formula theorem at the concrete monster/player
pair with `u = 1/2`. -/
theorem monster_performAttack_damage_witness :
    c6World.monster.ai.isActive = true ∧
    c6World.monster.isDead = false ∧
    c6World.monster.ai.aggroTarget = some 1 ∧
    c6World.players 1 = some c6Player ∧
    distanceLE c6World.monster.position c6Player.position
      (c6World.monster.attackRange * (12/10)) = true ∧
    ((MonsterAI.performAttack 1 c6World (1/2)).players 1).map PlayerEnt.hp =
      some (max 0 (c6Player.hp - (max 1 (jsFloor
        (c6World.monster.statsAttack.getD c6World.monster.attackDamage *
          max (1/2) (c6World.monster.statsLevel.getD 1 /
            max 1 (jsOr c6Player.level 10)) *
          (1 - min (3/4) (jsOr c6Player.defense 20 /
            (jsOr c6Player.defense 20 + 50 +
              c6World.monster.statsLevel.getD 1 * 5))) *
          (4/5 + (1/2) * (2/5)))) : ℚ))) := by
  have hin : distanceLE c6World.monster.position c6Player.position
      (c6World.monster.attackRange * (12/10)) = true := by
    norm_num [distanceLE, c6World, c6Monster, c6Player]
  exact ⟨rfl, rfl, rfl, rfl, hin,
    monster_performAttack_damage 1 c6World 1 c6Player (1/2) (le_refl 1)
      rfl rfl rfl rfl rfl rfl hin⟩

/-- C6 counterexample: for attack 10, levels 1/1, defense 20 and `r = 1`, the
claimed product is `10 · 1 · 11/15 · 1 = 22/3 ≈ 7.33`, but the code applies
`max(1, floor(22/3)) = 7`, leaving the 100-hp player at 93 — not at
`100 − 22/3`; the damage applied is the floored-and-clamped product, not the
product itself. -/
theorem monster_attack_damage_not_product_counterexample :
    (MonsterAI.performAttack 1 c6World (1/2)).players 1 =
      some { c6Player with hp := 93 } ∧
    ((10 : ℚ) * max (1/2) ((1 : ℚ)/1) *
      (1 - min (3/4) ((20 : ℚ)/(20 + 50 + 1 * 5))) *
      (4/5 + (1/2) * (2/5))) = 22/3 ∧
    ((100 : ℚ) - 22/3 ≠ 93) := by
  refine ⟨?_, by norm_num, by norm_num⟩
  have hfloor : jsFloor ((22 : ℚ)/3) = 7 := by norm_num [jsFloor]
  norm_num +decide [MonsterAI.performAttack, c6World, c6Monster, c6Player,
    distanceLE, jsOr, hfloor, PlayerEnt.takeDamage]

end Mmorpg
